import Mathlib

/-!
Shallow embedding of the mimir DCF valuation engine.

Two variants exist in the source:
  * the scalar variant (`src/models/gdcf.py`, class `DCF` with fluent
    setters and a `calc` method), and
  * the statement-driven variant (`src/models/dcf_m1.py`, class `DCF`
    with `_enterprise_value_calculation` and helpers).

Python floats are modelled as exact rationals (`ℚ`); Python exceptions
are modelled with `Except`; the `print` of a warning and the interactive
`input()` prompt are modelled as explicit data in the result.
-/

set_option autoImplicit false

namespace Mimir

/-! ## Dynamic (Python-like) argument values for the setter type checks -/

/-- A Python value as far as the scalar variant's setters can distinguish
one: a number (`int`/`float`, modelled as `ℚ`), a list of values, a
string, or `None`. -/
inductive PyVal where
  | num (q : ℚ)
  | list (xs : List PyVal)
  | str (s : String)
  | pyNone

/-- `isinstance(v, (int, float))`. -/
def PyVal.isNum : PyVal → Bool
  | .num _ => true
  | _ => false

/-! ## Scalar variant (`src/models/gdcf.py`) -/

/-- The mutable fields of the scalar `DCF` object. -/
structure DCFState where
  current_fcf : ℚ
  growth_rates : List ℚ
  terminal_growth_rate : ℚ
  wacc : ℚ
  cash_and_equivalents : ℚ
  total_debt : ℚ
  shares_outstanding : ℚ
deriving Repr, DecidableEq

/-- The defaults set in `DCF.__init__`. -/
def initDCF : DCFState :=
  { current_fcf := 0
    growth_rates := []
    terminal_growth_rate := 2/100
    wacc := 10/100
    cash_and_equivalents := 0
    total_debt := 0
    shares_outstanding := 1 }

/-- `DCF.set_current_fcf`: rejects non-numbers and negative numbers. -/
def set_current_fcf (s : DCFState) (v : PyVal) : Except String DCFState :=
  match v with
  | .num q =>
      if q < 0 then .error "Current FCF must be a non-negative number."
      else .ok { s with current_fcf := q }
  | _ => .error "Current FCF must be a non-negative number."

/-- `all(isinstance(r, (int, float)) for r in rates)`. -/
def allNums (xs : List PyVal) : Bool := xs.all PyVal.isNum

/-- Extract the rationals from a list known to hold only numbers. -/
def numsOf (xs : List PyVal) : List ℚ :=
  xs.filterMap fun v => match v with | .num q => some q | _ => none

/-- `DCF.set_growth_rates`: rejects non-lists and lists holding a
non-number. -/
def set_growth_rates (s : DCFState) (v : PyVal) : Except String DCFState :=
  match v with
  | .list xs =>
      if allNums xs then .ok { s with growth_rates := numsOf xs }
      else .error "Growth rates must be a list of numbers."
  | _ => .error "Growth rates must be a list of numbers."

/-- `DCF.set_terminal_growth_rate`: rejects non-numbers. -/
def set_terminal_growth_rate (s : DCFState) (v : PyVal) : Except String DCFState :=
  match v with
  | .num q => .ok { s with terminal_growth_rate := q }
  | _ => .error "Terminal growth rate must be a number."

/-- `DCF.set_wacc`: rejects non-numbers and numbers outside `(0, 1)`. -/
def set_wacc (s : DCFState) (v : PyVal) : Except String DCFState :=
  match v with
  | .num q =>
      if 0 < q ∧ q < 1 then .ok { s with wacc := q }
      else .error "WACC must be a number between 0 and 1 (exclusive)."
  | _ => .error "WACC must be a number between 0 and 1 (exclusive)."

/-- `DCF.set_cash_and_equivalents`: rejects non-numbers and negatives. -/
def set_cash_and_equivalents (s : DCFState) (v : PyVal) : Except String DCFState :=
  match v with
  | .num q =>
      if q < 0 then .error "Cash and equivalents must be a non-negative number."
      else .ok { s with cash_and_equivalents := q }
  | _ => .error "Cash and equivalents must be a non-negative number."

/-- `DCF.set_total_debt`: rejects non-numbers and negatives. -/
def set_total_debt (s : DCFState) (v : PyVal) : Except String DCFState :=
  match v with
  | .num q =>
      if q < 0 then .error "Total debt must be a non-negative number."
      else .ok { s with total_debt := q }
  | _ => .error "Total debt must be a non-negative number."

/-- `DCF.set_shares_outstanding`: rejects non-numbers and values `≤ 0`. -/
def set_shares_outstanding (s : DCFState) (v : PyVal) : Except String DCFState :=
  match v with
  | .num q =>
      if q ≤ 0 then .error "Shares outstanding must be a positive number."
      else .ok { s with shares_outstanding := q }
  | _ => .error "Shares outstanding must be a positive number."

/-- The two `raise ValueError` cases at the top of `DCF.calc`, plus the
`IndexError` Python would raise at `projected_fcfs[-1]` on an empty list
(shown unreachable below). -/
inductive CalcError where
  | waccLeTerminal
  | emptyGrowthRates
  | indexError
deriving Repr, DecidableEq

/-- The result dictionary returned by `DCF.calc`. -/
structure DCFResults where
  projected_fcfs : List ℚ
  present_value_of_fcfs : ℚ
  terminal_value : ℚ
  present_value_of_terminal_value : ℚ
  enterprise_value : ℚ
  equity_value : ℚ
  intrinsic_value_per_share : ℚ
deriving Repr, DecidableEq

/-- `DCF.calc` either returns the bare scalar `0` (the
`shares_outstanding <= 0` branch) or the results dictionary. -/
inductive CalcReturn where
  | scalar (v : ℚ)
  | record (r : DCFResults)
deriving Repr, DecidableEq

/-- A successful run of `DCF.calc`: `warned` records whether the
`Current FCF is zero or negative` warning was printed. -/
structure CalcOutput where
  warned : Bool
  value : CalcReturn
deriving Repr, DecidableEq

/-- The FCF projection loop of `DCF.calc` (step 1):
`next_fcf = last_fcf * (1 + growth_rate)`, appended in order. -/
def projectFcfs (last_fcf : ℚ) : List ℚ → List ℚ
  | [] => []
  | g :: gs =>
      let next_fcf := last_fcf * (1 + g)
      next_fcf :: projectFcfs next_fcf gs

/-- The discounting loop of `DCF.calc` (step 2), accumulating
`fcf / (1 + wacc) ^ (i + 1)` where `i` counts from `start`. -/
def pvSum (wacc : ℚ) : Nat → List ℚ → ℚ
  | _, [] => 0
  | i, fcf :: rest => fcf / (1 + wacc) ^ (i + 1) + pvSum wacc (i + 1) rest

/-- `DCF.calc` from `src/models/gdcf.py`. -/
def calcDCF (s : DCFState) : Except CalcError CalcOutput :=
  if s.wacc ≤ s.terminal_growth_rate then .error .waccLeTerminal
  else if s.growth_rates = [] then .error .emptyGrowthRates
  else
    let warned := decide (s.current_fcf ≤ 0)
    let projected_fcfs := projectFcfs s.current_fcf s.growth_rates
    let present_value_of_fcfs := pvSum s.wacc 0 projected_fcfs
    match projected_fcfs.getLast? with
    | none => .error .indexError
    | some last_projected_fcf =>
      let terminal_value :=
        last_projected_fcf * (1 + s.terminal_growth_rate) /
          (s.wacc - s.terminal_growth_rate)
      let present_value_of_terminal_value :=
        terminal_value / (1 + s.wacc) ^ s.growth_rates.length
      let enterprise_value :=
        present_value_of_fcfs + present_value_of_terminal_value
      let equity_value :=
        enterprise_value + s.cash_and_equivalents - s.total_debt
      if s.shares_outstanding ≤ 0 then .ok ⟨warned, .scalar 0⟩
      else .ok ⟨warned, .record
        { projected_fcfs := projected_fcfs
          present_value_of_fcfs := present_value_of_fcfs
          terminal_value := terminal_value
          present_value_of_terminal_value := present_value_of_terminal_value
          enterprise_value := enterprise_value
          equity_value := equity_value
          intrinsic_value_per_share := equity_value / s.shares_outstanding }⟩

/-! ## Statement-driven variant (`src/models/dcf_m1.py`) -/

/-- The base-year income-statement record: the line items
`_enterprise_value_calculation` reads from `income_statement[0]`.
`EBIT` is `none` when the line item is absent/null; `some 0` is the
stored-but-zero case — both are falsy under Python's
`if income_statement[0]['EBIT']:`. -/
structure IncomeRecord where
  EBIT : Option ℚ
  incomeTaxExpense : ℚ
  earningsBeforeTax : ℚ
  date : String
deriving Repr, DecidableEq

/-- A yearly balance-sheet record: the two line items read from
`balance_statement[0]` and `balance_statement[1]`. -/
structure BalanceRecord where
  totalAssets : ℚ
  totalNonCurrentAssets : ℚ
deriving Repr, DecidableEq

/-- The base-year cash-flow record: the line items read from
`cashflow_statement[0]`. -/
structure CashflowRecord where
  depreciationAmortization : ℚ
  capitalExpenditure : ℚ
deriving Repr, DecidableEq

/-- The prompt string of the interactive EBIT fallback (the f-string at
`dcf_m1.py` line 95). -/
def ebitPrompt (date : String) : String :=
  "EBIT missing. Enter EBIT on " ++ date ++ " or skip: "

/-- The EBIT selection at the top of `_enterprise_value_calculation`:
take the base-year line item when truthy, otherwise call the
manual-input provider (`input()` in the source).  Returns the chosen
EBIT together with the list of prompts issued. -/
def getEbit (item : Option ℚ) (date : String) (provider : String → ℚ) :
    ℚ × List String :=
  match item with
  | some v =>
      if v ≠ 0 then (v, [])
      else (provider (ebitPrompt date), [ebitPrompt date])
  | none => (provider (ebitPrompt date), [ebitPrompt date])

/-- `DCF._ulFCF`: unlevered free cash flow. -/
def ulFCF (ebit tax_rate non_cash_charges cwc cap_ex : ℚ) : ℚ :=
  ebit * (1 - tax_rate) + non_cash_charges + cwc + cap_ex

/-- The running state of the forecast loop in
`_enterprise_value_calculation`; `flows` accumulates the per-year
*present values* (`PV_flow`), which is all the loop appends. -/
structure LoopState where
  ebit : ℚ
  non_cash_charges : ℚ
  cwc : ℚ
  cap_ex : ℚ
  flows : List ℚ
deriving Repr, DecidableEq

/-- One iteration of the forecast loop (`dcf_m1.py` lines 110–117) at
year index `yr`. -/
def forecastStep (eg cg tax_rate discount : ℚ) (yr : Nat) (st : LoopState) :
    LoopState :=
  let ebit := st.ebit * (1 + (yr : ℚ) * eg)
  let non_cash_charges := st.non_cash_charges * (1 + (yr : ℚ) * eg)
  let cwc := st.cwc * (7/10)
  let cap_ex := st.cap_ex * (1 + (yr : ℚ) * cg)
  let flow := ulFCF ebit tax_rate non_cash_charges cwc cap_ex
  let PV_flow := flow / (1 + discount) ^ yr
  ⟨ebit, non_cash_charges, cwc, cap_ex, st.flows ++ [PV_flow]⟩

/-- `for yr in range(yr₀, yr₀ + n)` over the forecast loop. -/
def forecastFrom (eg cg tax_rate discount : ℚ) : Nat → Nat → LoopState → LoopState
  | _, 0, st => st
  | yr, n + 1, st =>
      forecastFrom eg cg tax_rate discount (yr + 1) n
        (forecastStep eg cg tax_rate discount yr st)

/-- `for yr in range(1, period + 1)`: the whole forecast loop. -/
def runForecast (eg cg tax_rate discount : ℚ) (period : Nat) (st : LoopState) :
    LoopState :=
  forecastFrom eg cg tax_rate discount 1 period st

/-- The zero-denominator failures Python would raise inside
`_enterprise_value_calculation`: `ZeroDivisionError` at the tax-rate
division (line 96) or at the Gordon Growth division (line 129), and the
`IndexError` at `flows[-1]` when the forecast period is `0`. -/
inductive StmtError where
  | taxRateZeroDiv
  | terminalZeroDiv
  | emptyFlows
deriving Repr, DecidableEq

/-- The change in working capital computed at `dcf_m1.py` lines 99–100
from the base-year and prior-year balance records. -/
def cwcOf (balance0 balance1 : BalanceRecord) : ℚ :=
  (balance0.totalAssets - balance0.totalNonCurrentAssets) -
    (balance1.totalAssets - balance1.totalNonCurrentAssets)

/-- The list of per-year present values built by the forecast loop of
`_enterprise_value_calculation`, starting from the extracted base-year
inputs (empty when the tax-rate division fails). -/
def statementFlows (income0 : IncomeRecord) (cashflow0 : CashflowRecord)
    (balance0 balance1 : BalanceRecord) (period : Nat)
    (discount_rate eg cg : ℚ) (provider : String → ℚ) : List ℚ :=
  if income0.earningsBeforeTax = 0 then []
  else
    (runForecast eg cg
      (income0.incomeTaxExpense / income0.earningsBeforeTax) discount_rate period
      ⟨(getEbit income0.EBIT income0.date provider).1,
        cashflow0.depreciationAmortization,
        cwcOf balance0 balance1,
        cashflow0.capitalExpenditure, []⟩).flows

/-- `DCF._enterprise_value_calculation` from `src/models/dcf_m1.py`.
On success it returns the enterprise value (`NPV_TV + NPV_FCF`) paired
with the prompts issued by the EBIT fallback. -/
def enterprise_value_calculation (income0 : IncomeRecord)
    (cashflow0 : CashflowRecord) (balance0 balance1 : BalanceRecord)
    (period : Nat) (discount_rate eg cg perpetual_growth_rate : ℚ)
    (provider : String → ℚ) : Except StmtError (ℚ × List String) :=
  let e := getEbit income0.EBIT income0.date provider
  let ebit := e.1
  let prompts := e.2
  if income0.earningsBeforeTax = 0 then .error .taxRateZeroDiv
  else
    let tax_rate := income0.incomeTaxExpense / income0.earningsBeforeTax
    let non_cash_charges := cashflow0.depreciationAmortization
    let cwc := cwcOf balance0 balance1
    let cap_ex := cashflow0.capitalExpenditure
    let discount := discount_rate
    let final := runForecast eg cg tax_rate discount period
      ⟨ebit, non_cash_charges, cwc, cap_ex, []⟩
    let NPV_FCF := final.flows.sum
    match final.flows.getLast? with
    | none => .error .emptyFlows
    | some lastFlow =>
        let final_cashflow := lastFlow * (1 + perpetual_growth_rate)
        if discount - perpetual_growth_rate = 0 then .error .terminalZeroDiv
        else
          let TV := final_cashflow / (discount - perpetual_growth_rate)
          let NPV_TV := TV / (1 + discount) ^ (1 + period)
          .ok (NPV_TV + NPV_FCF, prompts)

/-! ## Concrete sample inputs -/

/-- Scenario A of the spec (`gdcf.py`'s own example usage). -/
def scenarioA : DCFState :=
  { current_fcf := 100
    growth_rates := [15/100, 10/100, 8/100, 5/100, 3/100]
    terminal_growth_rate := 2/100
    wacc := 9/100
    cash_and_equivalents := 50
    total_debt := 20
    shares_outstanding := 100 }

/-- A minimal base-year income record: EBIT present and non-zero,
tax expense `0`, earnings before tax `1`. -/
def sampleIncome : IncomeRecord :=
  { EBIT := some 100, incomeTaxExpense := 0, earningsBeforeTax := 1
    date := "2020-12-31" }

/-- A base-year cash-flow record with zero D&A and zero CapEx. -/
def sampleCashflow : CashflowRecord :=
  { depreciationAmortization := 0, capitalExpenditure := 0 }

/-- A balance record with zero assets (so the working-capital delta
vanishes). -/
def sampleBalance : BalanceRecord :=
  { totalAssets := 0, totalNonCurrentAssets := 0 }

/-- A canned manual-input provider that always answers `0`. -/
def zeroProvider : String → ℚ := fun _ => 0

/-! ## Helper lemmas -/

lemma projectFcfs_length (f : ℚ) (gs : List ℚ) :
    (projectFcfs f gs).length = gs.length := by
  induction gs generalizing f with
  | nil => rfl
  | cons g gs ih => simpa [projectFcfs] using ih (f * (1 + g))

lemma projectFcfs_ne_nil (f : ℚ) {gs : List ℚ} (h : gs ≠ []) :
    projectFcfs f gs ≠ [] := by
  intro hc
  apply h
  have := projectFcfs_length f gs
  rw [hc] at this
  exact List.length_eq_zero.mp this.symm

lemma exists_getLast?_of_ne_nil {l : List ℚ} (h : l ≠ []) :
    ∃ a, l.getLast? = some a :=
  ⟨l.getLast h, List.getLast?_eq_getLast _ h⟩

/-- Element-level recurrence of the projection loop, via `getD`. -/
lemma projectFcfs_getD (gs : List ℚ) (f : ℚ) (i : Nat) (hi : i < gs.length) :
    (projectFcfs f gs).getD i 0 =
      (if i = 0 then f else (projectFcfs f gs).getD (i - 1) 0) *
        (1 + gs.getD i 0) := by
  induction gs generalizing f i with
  | nil => simp at hi
  | cons g gs ih =>
    cases i with
    | zero => simp [projectFcfs]
    | succ j =>
      have hj : j < gs.length := by simpa using hi
      have := ih (f * (1 + g)) j hj
      cases j with
      | zero => simpa [projectFcfs] using this
      | succ k => simpa [projectFcfs] using this

/-- The discounting accumulator as a closed sum. -/
lemma pvSum_eq_sum (w : ℚ) (fs : List ℚ) : ∀ k : Nat,
    pvSum w k fs =
      ∑ i ∈ Finset.range fs.length, fs.getD i 0 / (1 + w) ^ (k + i + 1) := by
  induction fs with
  | nil => intro k; simp [pvSum]
  | cons f fs ih =>
    intro k
    rw [pvSum, ih (k + 1), List.length_cons, Finset.sum_range_succ']
    have hexp : ∀ i : Nat, k + 1 + i + 1 = k + (i + 1) + 1 := by omega
    simp only [List.getD_cons_succ, List.getD_cons_zero, hexp]
    ring

lemma pvSum_ne_nil_pos (w : ℚ) (fs : List ℚ) :
    pvSum w 0 fs = ∑ i ∈ Finset.range fs.length, fs.getD i 0 / (1 + w) ^ (i + 1) := by
  simpa using pvSum_eq_sum w fs 0

/-- Unfolding `calcDCF` when all checks pass and the share count is
positive. -/
lemma calcDCF_eq_record (s : DCFState) (l : ℚ)
    (h1 : ¬ s.wacc ≤ s.terminal_growth_rate) (h2 : ¬ s.growth_rates = [])
    (hl : (projectFcfs s.current_fcf s.growth_rates).getLast? = some l)
    (h3 : ¬ s.shares_outstanding ≤ 0) :
    calcDCF s = .ok ⟨decide (s.current_fcf ≤ 0), .record
      { projected_fcfs := projectFcfs s.current_fcf s.growth_rates
        present_value_of_fcfs := pvSum s.wacc 0 (projectFcfs s.current_fcf s.growth_rates)
        terminal_value := l * (1 + s.terminal_growth_rate) /
          (s.wacc - s.terminal_growth_rate)
        present_value_of_terminal_value :=
          l * (1 + s.terminal_growth_rate) / (s.wacc - s.terminal_growth_rate) /
            (1 + s.wacc) ^ s.growth_rates.length
        enterprise_value :=
          pvSum s.wacc 0 (projectFcfs s.current_fcf s.growth_rates) +
            l * (1 + s.terminal_growth_rate) / (s.wacc - s.terminal_growth_rate) /
              (1 + s.wacc) ^ s.growth_rates.length
        equity_value :=
          pvSum s.wacc 0 (projectFcfs s.current_fcf s.growth_rates) +
            l * (1 + s.terminal_growth_rate) / (s.wacc - s.terminal_growth_rate) /
              (1 + s.wacc) ^ s.growth_rates.length +
            s.cash_and_equivalents - s.total_debt
        intrinsic_value_per_share :=
          (pvSum s.wacc 0 (projectFcfs s.current_fcf s.growth_rates) +
            l * (1 + s.terminal_growth_rate) / (s.wacc - s.terminal_growth_rate) /
              (1 + s.wacc) ^ s.growth_rates.length +
            s.cash_and_equivalents - s.total_debt) / s.shares_outstanding }⟩ := by
  rw [calcDCF]
  rw [if_neg h1, if_neg h2]
  simp only [hl, h3, if_false]

/-- Unfolding `calcDCF` into the bare-`0` branch when the share count is
non-positive. -/
lemma calcDCF_eq_scalar (s : DCFState) (l : ℚ)
    (h1 : ¬ s.wacc ≤ s.terminal_growth_rate) (h2 : ¬ s.growth_rates = [])
    (hl : (projectFcfs s.current_fcf s.growth_rates).getLast? = some l)
    (h3 : s.shares_outstanding ≤ 0) :
    calcDCF s = .ok ⟨decide (s.current_fcf ≤ 0), .scalar 0⟩ := by
  rw [calcDCF]
  rw [if_neg h1, if_neg h2]
  simp only [hl]
  simp [h3]

lemma forecastFrom_flows_length (eg cg t d : ℚ) :
    ∀ (n yr : Nat) (st : LoopState),
      (forecastFrom eg cg t d yr n st).flows.length = st.flows.length + n := by
  intro n
  induction n with
  | zero => intro yr st; rfl
  | succ k ih =>
    intro yr st
    rw [forecastFrom, ih]
    simp only [forecastStep]
    rw [List.length_append]
    simp
    omega

lemma runForecast_flows_length (eg cg t d : ℚ) (period : Nat) (st : LoopState) :
    (runForecast eg cg t d period st).flows.length = st.flows.length + period :=
  forecastFrom_flows_length eg cg t d period 1 st

lemma statementFlows_length (income0 : IncomeRecord) (cashflow0 : CashflowRecord)
    (balance0 balance1 : BalanceRecord) (period : Nat)
    (discount_rate eg cg : ℚ) (provider : String → ℚ)
    (hEBT : income0.earningsBeforeTax ≠ 0) :
    (statementFlows income0 cashflow0 balance0 balance1 period
      discount_rate eg cg provider).length = period := by
  rw [statementFlows, if_neg hEBT, runForecast_flows_length]
  simp

/-- Unfolding `enterprise_value_calculation` when the tax-rate division
succeeds, the forecast period is at least one year, and the Gordon
Growth denominator is non-zero. -/
lemma evc_eq_ok (income0 : IncomeRecord) (cashflow0 : CashflowRecord)
    (balance0 balance1 : BalanceRecord) (period : Nat)
    (discount_rate eg cg pgr : ℚ) (provider : String → ℚ) (l : ℚ)
    (hEBT : income0.earningsBeforeTax ≠ 0)
    (hl : (statementFlows income0 cashflow0 balance0 balance1 period
      discount_rate eg cg provider).getLast? = some l)
    (hd : ¬ discount_rate - pgr = 0) :
    enterprise_value_calculation income0 cashflow0 balance0 balance1 period
        discount_rate eg cg pgr provider =
      .ok (l * (1 + pgr) / (discount_rate - pgr) / (1 + discount_rate) ^ (1 + period) +
        (statementFlows income0 cashflow0 balance0 balance1 period
          discount_rate eg cg provider).sum,
        (getEbit income0.EBIT income0.date provider).2) := by
  rw [statementFlows, if_neg hEBT] at hl
  rw [enterprise_value_calculation]
  rw [if_neg hEBT]
  simp only [hl, hd, if_false]
  rw [statementFlows, if_neg hEBT]

/-- When the discount rate equals the perpetual growth rate, the run
fails only at the Gordon Growth division itself. -/
lemma evc_eq_terminalZeroDiv (income0 : IncomeRecord) (cashflow0 : CashflowRecord)
    (balance0 balance1 : BalanceRecord) (period : Nat)
    (discount_rate eg cg pgr : ℚ) (provider : String → ℚ) (l : ℚ)
    (hEBT : income0.earningsBeforeTax ≠ 0)
    (hl : (statementFlows income0 cashflow0 balance0 balance1 period
      discount_rate eg cg provider).getLast? = some l)
    (hd : discount_rate - pgr = 0) :
    enterprise_value_calculation income0 cashflow0 balance0 balance1 period
        discount_rate eg cg pgr provider = .error .terminalZeroDiv := by
  rw [statementFlows, if_neg hEBT] at hl
  rw [enterprise_value_calculation]
  rw [if_neg hEBT]
  simp only [hl, hd, if_true]

lemma statementFlows_ne_nil (income0 : IncomeRecord) (cashflow0 : CashflowRecord)
    (balance0 balance1 : BalanceRecord) (period : Nat)
    (discount_rate eg cg : ℚ) (provider : String → ℚ)
    (hEBT : income0.earningsBeforeTax ≠ 0) (hp : 1 ≤ period) :
    statementFlows income0 cashflow0 balance0 balance1 period
      discount_rate eg cg provider ≠ [] := by
  intro hc
  have := statementFlows_length income0 cashflow0 balance0 balance1 period
    discount_rate eg cg provider hEBT
  rw [hc] at this
  simp at this
  omega

/-! ## Claim theorems -/

/-- C3: in the scalar variant, for every non-empty `growth_rates` list of
length `N`, the projected-FCF sequence has exactly `N` elements, element
`0` equals `current_fcf * (1 + growth_rates[0])`, each later element `i`
equals element `i - 1` times `(1 + growth_rates[i])`, and the present
value of the flow at index `i` contributes `flow / (1 + wacc) ^ (i + 1)`
to the discounted total. -/
theorem C3_scalar_projection (fcf wacc : ℚ) (gs : List ℚ) (_h : gs ≠ []) :
    (projectFcfs fcf gs).length = gs.length ∧
    (∀ i, i < gs.length → (projectFcfs fcf gs).getD i 0 =
      (if i = 0 then fcf else (projectFcfs fcf gs).getD (i - 1) 0) *
        (1 + gs.getD i 0)) ∧
    pvSum wacc 0 (projectFcfs fcf gs) =
      ∑ i ∈ Finset.range gs.length,
        (projectFcfs fcf gs).getD i 0 / (1 + wacc) ^ (i + 1) := by
  refine ⟨projectFcfs_length fcf gs, fun i hi => projectFcfs_getD gs fcf i hi, ?_⟩
  rw [pvSum_ne_nil_pos, projectFcfs_length]

/-- Witness for C3 at `fcf = 100`, `gs = [0.15, 0.10]`, `wacc = 0.09`. -/
theorem C3_scalar_projection_witness :
    ([(15 : ℚ)/100, 10/100] ≠ ([] : List ℚ)) ∧
    ((projectFcfs 100 [(15 : ℚ)/100, 10/100]).length =
        ([(15 : ℚ)/100, 10/100] : List ℚ).length ∧
      (∀ i, i < ([(15 : ℚ)/100, 10/100] : List ℚ).length →
        (projectFcfs 100 [(15 : ℚ)/100, 10/100]).getD i 0 =
          (if i = 0 then (100 : ℚ)
            else (projectFcfs 100 [(15 : ℚ)/100, 10/100]).getD (i - 1) 0) *
            (1 + ([(15 : ℚ)/100, 10/100] : List ℚ).getD i 0)) ∧
      pvSum (9/100) 0 (projectFcfs 100 [(15 : ℚ)/100, 10/100]) =
        ∑ i ∈ Finset.range ([(15 : ℚ)/100, 10/100] : List ℚ).length,
          (projectFcfs 100 [(15 : ℚ)/100, 10/100]).getD i 0 / (1 + 9/100) ^ (i + 1)) :=
  ⟨by decide, C3_scalar_projection 100 (9/100) [(15 : ℚ)/100, 10/100] (by decide)⟩

/-- C4: in the scalar variant, for all valid inputs the roll-up satisfies
`enterprise_value = Σ PV(flows) + PV(terminal value)`,
`equity_value = enterprise_value + cash - debt`, and
`intrinsic value per share = equity_value / shares`, all exactly over
`ℚ`. -/
theorem C4_scalar_rollup (s : DCFState)
    (h1 : s.terminal_growth_rate < s.wacc) (h2 : s.growth_rates ≠ [])
    (h3 : 0 < s.shares_outstanding) :
    ∃ out r, calcDCF s = .ok out ∧ out.value = .record r ∧
      r.present_value_of_fcfs = pvSum s.wacc 0 r.projected_fcfs ∧
      r.enterprise_value =
        r.present_value_of_fcfs + r.present_value_of_terminal_value ∧
      r.equity_value =
        r.enterprise_value + s.cash_and_equivalents - s.total_debt ∧
      r.intrinsic_value_per_share = r.equity_value / s.shares_outstanding := by
  obtain ⟨l, hl⟩ := exists_getLast?_of_ne_nil (projectFcfs_ne_nil s.current_fcf h2)
  exact ⟨_, _, calcDCF_eq_record s l (not_le.mpr h1) h2 hl (not_le.mpr h3),
    rfl, rfl, rfl, rfl, rfl⟩

/-- Witness for C4 at the Scenario A inputs. -/
theorem C4_scalar_rollup_witness :
    (scenarioA.terminal_growth_rate < scenarioA.wacc ∧
      scenarioA.growth_rates ≠ [] ∧ 0 < scenarioA.shares_outstanding) ∧
    (∃ out r, calcDCF scenarioA = .ok out ∧ out.value = .record r ∧
      r.present_value_of_fcfs = pvSum scenarioA.wacc 0 r.projected_fcfs ∧
      r.enterprise_value =
        r.present_value_of_fcfs + r.present_value_of_terminal_value ∧
      r.equity_value =
        r.enterprise_value + scenarioA.cash_and_equivalents - scenarioA.total_debt ∧
      r.intrinsic_value_per_share = r.equity_value / scenarioA.shares_outstanding) :=
  ⟨⟨by norm_num [scenarioA], by simp [scenarioA], by norm_num [scenarioA]⟩,
    C4_scalar_rollup scenarioA (by norm_num [scenarioA]) (by simp [scenarioA])
      (by norm_num [scenarioA])⟩

/-- C5: in the statement-driven variant, each forecast iteration at year
index `yr` updates `ebit`, `non_cash_charges`, `cwc` (by the fixed
literal `0.7`) and `cap_ex` as stated, appends the present value of that
year's unlevered free cash flow, and the loop applies these steps at
successive year indices starting from `1`. -/
theorem C5_statement_forecast_step (eg cg tax d : ℚ) (yr : Nat) (st : LoopState) :
    (forecastStep eg cg tax d yr st).ebit = st.ebit * (1 + (yr : ℚ) * eg) ∧
    (forecastStep eg cg tax d yr st).non_cash_charges =
      st.non_cash_charges * (1 + (yr : ℚ) * eg) ∧
    (forecastStep eg cg tax d yr st).cwc = st.cwc * (7/10) ∧
    (forecastStep eg cg tax d yr st).cap_ex = st.cap_ex * (1 + (yr : ℚ) * cg) ∧
    (forecastStep eg cg tax d yr st).flows = st.flows ++
      [ulFCF (st.ebit * (1 + (yr : ℚ) * eg)) tax
          (st.non_cash_charges * (1 + (yr : ℚ) * eg))
          (st.cwc * (7/10)) (st.cap_ex * (1 + (yr : ℚ) * cg)) /
        (1 + d) ^ yr] ∧
    ulFCF (st.ebit * (1 + (yr : ℚ) * eg)) tax
        (st.non_cash_charges * (1 + (yr : ℚ) * eg))
        (st.cwc * (7/10)) (st.cap_ex * (1 + (yr : ℚ) * cg)) =
      st.ebit * (1 + (yr : ℚ) * eg) * (1 - tax) +
        st.non_cash_charges * (1 + (yr : ℚ) * eg) +
        st.cwc * (7/10) + st.cap_ex * (1 + (yr : ℚ) * cg) ∧
    (∀ n, forecastFrom eg cg tax d yr (n + 1) st =
      forecastFrom eg cg tax d (yr + 1) n (forecastStep eg cg tax d yr st)) ∧
    (∀ p, runForecast eg cg tax d p st = forecastFrom eg cg tax d 1 p st) :=
  ⟨rfl, rfl, rfl, rfl, rfl, rfl, fun _ => rfl, fun _ => rfl⟩

/-- C6: Scenario A of the spec: the scalar calculation succeeds, the
projected FCF sequence is exactly `[115, 126.5, 136.62, 143.451,
147.75453]` as rationals, and enterprise value, equity value and
intrinsic value per share agree exactly with the §4.3–4.5 formulas at
these inputs. -/
theorem C6_scenarioA_exact :
    calcDCF scenarioA = .ok ⟨false, .record
      { projected_fcfs := [115, 253/2, 6831/50, 143451/1000, 14775453/100000]
        present_value_of_fcfs := 7925873956500/15386239549
        terminal_value := 107649729/50000
        present_value_of_terminal_value := 21529945800000/15386239549
        enterprise_value := 270236878500/141158161
        equity_value := 274471623330/141158161
        intrinsic_value_per_share := 27447162333/1411581610 }⟩ ∧
    [(115 : ℚ), 253/2, 6831/50, 143451/1000, 14775453/100000] =
      [115, 1265/10, 13662/100, 143451/1000, 14775453/100000] ∧
    (7925873956500/15386239549 : ℚ) =
      115 / (1 + 9/100) + (253/2) / (1 + 9/100) ^ 2 + (6831/50) / (1 + 9/100) ^ 3 +
        (143451/1000) / (1 + 9/100) ^ 4 + (14775453/100000) / (1 + 9/100) ^ 5 ∧
    (107649729/50000 : ℚ) = 14775453/100000 * (1 + 2/100) / (9/100 - 2/100) ∧
    (21529945800000/15386239549 : ℚ) = (107649729/50000) / (1 + 9/100) ^ 5 ∧
    (270236878500/141158161 : ℚ) =
      7925873956500/15386239549 + 21529945800000/15386239549 ∧
    (274471623330/141158161 : ℚ) = 270236878500/141158161 + 50 - 20 ∧
    (27447162333/1411581610 : ℚ) = (274471623330/141158161) / 100 := by
  refine ⟨?_, by norm_num, by norm_num, by norm_num, by norm_num, by norm_num,
    by norm_num, by norm_num⟩
  rw [calcDCF]
  norm_num [scenarioA, projectFcfs, pvSum]
  exact fun hc => absurd hc (by simp)

/-- C7: in the scalar variant, when the share count is `0` or negative at
calculation time (bypassing the setter validation) the calculation does
not fail: it returns the bare value `0`. -/
theorem C7_shares_nonpositive (s : DCFState)
    (h1 : ¬ s.wacc ≤ s.terminal_growth_rate) (h2 : s.growth_rates ≠ [])
    (h3 : s.shares_outstanding ≤ 0) :
    calcDCF s = .ok ⟨decide (s.current_fcf ≤ 0), .scalar 0⟩ := by
  obtain ⟨l, hl⟩ := exists_getLast?_of_ne_nil (projectFcfs_ne_nil s.current_fcf h2)
  exact calcDCF_eq_scalar s l h1 h2 hl h3

/-- Scenario A with the share count forced to `0` (field injection
bypassing `set_shares_outstanding`). -/
def scenarioC : DCFState := { scenarioA with shares_outstanding := 0 }

/-- Witness for C7 at Scenario C. -/
theorem C7_shares_nonpositive_witness :
    ((¬ scenarioC.wacc ≤ scenarioC.terminal_growth_rate) ∧
      scenarioC.growth_rates ≠ [] ∧ scenarioC.shares_outstanding ≤ 0) ∧
    calcDCF scenarioC = .ok ⟨decide (scenarioC.current_fcf ≤ 0), .scalar 0⟩ :=
  ⟨⟨by norm_num [scenarioC, scenarioA], by simp [scenarioC, scenarioA],
      by norm_num [scenarioC, scenarioA]⟩,
    C7_shares_nonpositive scenarioC (by norm_num [scenarioC, scenarioA])
      (by simp [scenarioC, scenarioA]) (by norm_num [scenarioC, scenarioA])⟩

/-- C10: in the scalar variant an empty `growth_rates` list always makes
the calculation fail before any projection; when the initial checks pass
the projected list is non-empty so reading its last element succeeds, and
the `IndexError` branch is unreachable on every input. -/
theorem C10_empty_growth_guard :
    (∀ s : DCFState, s.growth_rates = [] →
      calcDCF s = .error .waccLeTerminal ∨
        calcDCF s = .error .emptyGrowthRates) ∧
    (∀ s : DCFState, ¬ s.wacc ≤ s.terminal_growth_rate →
      s.growth_rates ≠ [] →
      ∃ l, (projectFcfs s.current_fcf s.growth_rates).getLast? = some l) ∧
    (∀ s : DCFState, calcDCF s ≠ .error .indexError) := by
  refine ⟨fun s h => ?_, fun s _ h2 => exists_getLast?_of_ne_nil
    (projectFcfs_ne_nil s.current_fcf h2), fun s hc => ?_⟩
  · by_cases hw : s.wacc ≤ s.terminal_growth_rate
    · left
      rw [calcDCF, if_pos hw]
    · right
      rw [calcDCF, if_neg hw, if_pos h]
  · by_cases hw : s.wacc ≤ s.terminal_growth_rate
    · rw [calcDCF, if_pos hw] at hc
      exact CalcError.noConfusion (Except.error.inj hc)
    by_cases hg : s.growth_rates = []
    · rw [calcDCF, if_neg hw, if_pos hg] at hc
      exact CalcError.noConfusion (Except.error.inj hc)
    obtain ⟨l, hl⟩ := exists_getLast?_of_ne_nil (projectFcfs_ne_nil s.current_fcf hg)
    by_cases hs : s.shares_outstanding ≤ 0
    · rw [calcDCF_eq_scalar s l hw hg hl hs] at hc
      exact Except.noConfusion hc
    · rw [calcDCF_eq_record s l hw hg hl hs] at hc
      exact Except.noConfusion hc

/-- Witness for C10 at the default state (empty growth rates) and at
Scenario A. -/
theorem C10_empty_growth_guard_witness :
    (initDCF.growth_rates = [] ∧
      (calcDCF initDCF = .error .waccLeTerminal ∨
        calcDCF initDCF = .error .emptyGrowthRates)) ∧
    ((¬ scenarioA.wacc ≤ scenarioA.terminal_growth_rate) ∧
      scenarioA.growth_rates ≠ [] ∧
      ∃ l, (projectFcfs scenarioA.current_fcf scenarioA.growth_rates).getLast? =
        some l) ∧
    calcDCF scenarioA ≠ .error .indexError :=
  ⟨⟨rfl, C10_empty_growth_guard.1 initDCF rfl⟩,
    ⟨by norm_num [scenarioA], by simp [scenarioA],
      C10_empty_growth_guard.2.1 scenarioA (by norm_num [scenarioA])
        (by simp [scenarioA])⟩,
    C10_empty_growth_guard.2.2 scenarioA⟩

/-- C8: the scalar variant's setters reject, with the source's exact
error message, every invalid parameter the claim lists, while a zero or
negative current FCF at calculation time only flags the warning and the
computation proceeds. -/
theorem C8_scalar_validation :
    (∀ (s : DCFState) (v : PyVal), v.isNum = false →
      set_current_fcf s v = .error "Current FCF must be a non-negative number.") ∧
    (∀ (s : DCFState) (q : ℚ), q < 0 →
      set_current_fcf s (.num q) = .error "Current FCF must be a non-negative number.") ∧
    (∀ (s : DCFState) (v : PyVal), (∀ xs, v ≠ .list xs) →
      set_growth_rates s v = .error "Growth rates must be a list of numbers.") ∧
    (∀ (s : DCFState) (xs : List PyVal), allNums xs = false →
      set_growth_rates s (.list xs) = .error "Growth rates must be a list of numbers.") ∧
    (∀ (s : DCFState) (v : PyVal), v.isNum = false →
      set_terminal_growth_rate s v = .error "Terminal growth rate must be a number.") ∧
    (∀ (s : DCFState) (v : PyVal), v.isNum = false →
      set_wacc s v = .error "WACC must be a number between 0 and 1 (exclusive).") ∧
    (∀ (s : DCFState) (q : ℚ), ¬ (0 < q ∧ q < 1) →
      set_wacc s (.num q) = .error "WACC must be a number between 0 and 1 (exclusive).") ∧
    (∀ (s : DCFState) (v : PyVal), v.isNum = false →
      set_cash_and_equivalents s v =
        .error "Cash and equivalents must be a non-negative number.") ∧
    (∀ (s : DCFState) (q : ℚ), q < 0 →
      set_cash_and_equivalents s (.num q) =
        .error "Cash and equivalents must be a non-negative number.") ∧
    (∀ (s : DCFState) (v : PyVal), v.isNum = false →
      set_total_debt s v = .error "Total debt must be a non-negative number.") ∧
    (∀ (s : DCFState) (q : ℚ), q < 0 →
      set_total_debt s (.num q) = .error "Total debt must be a non-negative number.") ∧
    (∀ (s : DCFState) (v : PyVal), v.isNum = false →
      set_shares_outstanding s v = .error "Shares outstanding must be a positive number.") ∧
    (∀ (s : DCFState) (q : ℚ), q ≤ 0 →
      set_shares_outstanding s (.num q) =
        .error "Shares outstanding must be a positive number.") ∧
    (∀ s : DCFState, ¬ s.wacc ≤ s.terminal_growth_rate → s.growth_rates ≠ [] →
      s.current_fcf ≤ 0 → ∃ out, calcDCF s = .ok out ∧ out.warned = true) := by
  refine ⟨?_, ?_, ?_, ?_, ?_, ?_, ?_, ?_, ?_, ?_, ?_, ?_, ?_, ?_⟩
  · intro s v hv
    cases v <;> simp_all [set_current_fcf, PyVal.isNum]
  · intro s q hq
    simp [set_current_fcf, hq]
  · intro s v hv
    cases v with
    | list xs => exact absurd rfl (hv xs)
    | num q => rfl
    | str t => rfl
    | pyNone => rfl
  · intro s xs hxs
    simp [set_growth_rates, hxs]
  · intro s v hv
    cases v <;> simp_all [set_terminal_growth_rate, PyVal.isNum]
  · intro s v hv
    cases v <;> simp_all [set_wacc, PyVal.isNum]
  · intro s q hq
    simp [set_wacc, hq]
  · intro s v hv
    cases v <;> simp_all [set_cash_and_equivalents, PyVal.isNum]
  · intro s q hq
    simp [set_cash_and_equivalents, hq]
  · intro s v hv
    cases v <;> simp_all [set_total_debt, PyVal.isNum]
  · intro s q hq
    simp [set_total_debt, hq]
  · intro s v hv
    cases v <;> simp_all [set_shares_outstanding, PyVal.isNum]
  · intro s q hq
    simp [set_shares_outstanding, hq]
  · intro s h1 h2 h3
    obtain ⟨l, hl⟩ := exists_getLast?_of_ne_nil (projectFcfs_ne_nil s.current_fcf h2)
    by_cases hs : s.shares_outstanding ≤ 0
    · exact ⟨_, calcDCF_eq_scalar s l h1 h2 hl hs, by simp [h3]⟩
    · exact ⟨_, calcDCF_eq_record s l h1 h2 hl hs, by simp [h3]⟩

/-- Scenario A with the current FCF forced to `0` so that only the
warning fires at calculation time. -/
def scenarioWarn : DCFState := { scenarioA with current_fcf := 0 }

/-- Witness for C8: each rejection case at a concrete bad input, and the
warning-and-proceed case at Scenario A with FCF `0`. -/
theorem C8_scalar_validation_witness :
    (PyVal.isNum (.str "x") = false ∧
      set_current_fcf initDCF (.str "x") =
        .error "Current FCF must be a non-negative number.") ∧
    ((-1 : ℚ) < 0 ∧
      set_current_fcf initDCF (.num (-1)) =
        .error "Current FCF must be a non-negative number.") ∧
    ((∀ xs, PyVal.num 1 ≠ .list xs) ∧
      set_growth_rates initDCF (.num 1) =
        .error "Growth rates must be a list of numbers.") ∧
    (allNums [PyVal.str "x"] = false ∧
      set_growth_rates initDCF (.list [.str "x"]) =
        .error "Growth rates must be a list of numbers.") ∧
    (PyVal.isNum .pyNone = false ∧
      set_terminal_growth_rate initDCF .pyNone =
        .error "Terminal growth rate must be a number.") ∧
    (PyVal.isNum (.str "w") = false ∧
      set_wacc initDCF (.str "w") =
        .error "WACC must be a number between 0 and 1 (exclusive).") ∧
    (¬ ((0 : ℚ) < 2 ∧ (2 : ℚ) < 1) ∧
      set_wacc initDCF (.num 2) =
        .error "WACC must be a number between 0 and 1 (exclusive).") ∧
    (PyVal.isNum .pyNone = false ∧
      set_cash_and_equivalents initDCF .pyNone =
        .error "Cash and equivalents must be a non-negative number.") ∧
    ((-3 : ℚ) < 0 ∧
      set_cash_and_equivalents initDCF (.num (-3)) =
        .error "Cash and equivalents must be a non-negative number.") ∧
    (PyVal.isNum .pyNone = false ∧
      set_total_debt initDCF .pyNone =
        .error "Total debt must be a non-negative number.") ∧
    ((-2 : ℚ) < 0 ∧
      set_total_debt initDCF (.num (-2)) =
        .error "Total debt must be a non-negative number.") ∧
    (PyVal.isNum .pyNone = false ∧
      set_shares_outstanding initDCF .pyNone =
        .error "Shares outstanding must be a positive number.") ∧
    ((0 : ℚ) ≤ 0 ∧
      set_shares_outstanding initDCF (.num 0) =
        .error "Shares outstanding must be a positive number.") ∧
    ((¬ scenarioWarn.wacc ≤ scenarioWarn.terminal_growth_rate) ∧
      scenarioWarn.growth_rates ≠ [] ∧ scenarioWarn.current_fcf ≤ 0 ∧
      ∃ out, calcDCF scenarioWarn = .ok out ∧ out.warned = true) :=
  ⟨⟨rfl, C8_scalar_validation.1 initDCF (.str "x") rfl⟩,
    ⟨by norm_num, C8_scalar_validation.2.1 initDCF (-1) (by norm_num)⟩,
    ⟨fun xs => by simp, C8_scalar_validation.2.2.1 initDCF (.num 1) (fun xs => by simp)⟩,
    ⟨rfl, C8_scalar_validation.2.2.2.1 initDCF [.str "x"] rfl⟩,
    ⟨rfl, C8_scalar_validation.2.2.2.2.1 initDCF .pyNone rfl⟩,
    ⟨rfl, C8_scalar_validation.2.2.2.2.2.1 initDCF (.str "w") rfl⟩,
    ⟨by norm_num, C8_scalar_validation.2.2.2.2.2.2.1 initDCF 2 (by norm_num)⟩,
    ⟨rfl, C8_scalar_validation.2.2.2.2.2.2.2.1 initDCF .pyNone rfl⟩,
    ⟨by norm_num, C8_scalar_validation.2.2.2.2.2.2.2.2.1 initDCF (-3) (by norm_num)⟩,
    ⟨rfl, C8_scalar_validation.2.2.2.2.2.2.2.2.2.1 initDCF .pyNone rfl⟩,
    ⟨by norm_num, C8_scalar_validation.2.2.2.2.2.2.2.2.2.2.1 initDCF (-2) (by norm_num)⟩,
    ⟨rfl, C8_scalar_validation.2.2.2.2.2.2.2.2.2.2.2.1 initDCF .pyNone rfl⟩,
    ⟨le_refl 0, C8_scalar_validation.2.2.2.2.2.2.2.2.2.2.2.2.1 initDCF 0 (le_refl 0)⟩,
    ⟨by norm_num [scenarioWarn, scenarioA], by simp [scenarioWarn, scenarioA],
      by norm_num [scenarioWarn, scenarioA],
      C8_scalar_validation.2.2.2.2.2.2.2.2.2.2.2.2.2 scenarioWarn
        (by norm_num [scenarioWarn, scenarioA]) (by simp [scenarioWarn, scenarioA])
        (by norm_num [scenarioWarn, scenarioA])⟩⟩

/-- C9: in the statement-driven variant, a present and non-zero base-year
EBIT line item is used directly and the manual-input provider is never
invoked; an absent (or zero/null) item invokes the provider exactly once
with a prompt naming the missing date, and the provider's answer becomes
the EBIT.  Any successful full calculation reports exactly the prompts of
this EBIT selection. -/
theorem C9_ebit_source_and_fallback :
    (∀ (v : ℚ) (date : String) (provider : String → ℚ), v ≠ 0 →
      getEbit (some v) date provider = (v, [])) ∧
    (∀ (date : String) (provider : String → ℚ),
      getEbit none date provider =
        (provider (ebitPrompt date), [ebitPrompt date]) ∧
      getEbit (some 0) date provider =
        (provider (ebitPrompt date), [ebitPrompt date]) ∧
      ebitPrompt date = "EBIT missing. Enter EBIT on " ++ date ++ " or skip: ") ∧
    (∀ (income0 : IncomeRecord) (cashflow0 : CashflowRecord)
      (balance0 balance1 : BalanceRecord) (period : Nat)
      (d eg cg pgr : ℚ) (provider : String → ℚ) (v : ℚ) (prompts : List String),
      enterprise_value_calculation income0 cashflow0 balance0 balance1 period
        d eg cg pgr provider = .ok (v, prompts) →
      prompts = (getEbit income0.EBIT income0.date provider).2) := by
  refine ⟨?_, ?_, ?_⟩
  · intro v date provider hv
    simp [getEbit, hv]
  · intro date provider
    exact ⟨rfl, by simp [getEbit], rfl⟩
  · intro income0 cashflow0 balance0 balance1 period d eg cg pgr provider v prompts h
    simp only [enterprise_value_calculation] at h
    split at h
    · exact absurd h (by simp)
    · split at h
      · exact absurd h (by simp)
      · split at h
        · exact absurd h (by simp)
        · simp only [Except.ok.injEq, Prod.mk.injEq] at h
          exact h.2.symm

/-- Witness for C9: the present/non-zero case, the absent and zero cases,
and prompt propagation through a concrete successful run. -/
theorem C9_ebit_source_and_fallback_witness :
    ((5 : ℚ) ≠ 0 ∧ getEbit (some 5) "2020-12-31" zeroProvider = (5, [])) ∧
    (getEbit none "2020-12-31" zeroProvider =
        (zeroProvider (ebitPrompt "2020-12-31"), [ebitPrompt "2020-12-31"]) ∧
      getEbit (some 0) "2020-12-31" zeroProvider =
        (zeroProvider (ebitPrompt "2020-12-31"), [ebitPrompt "2020-12-31"]) ∧
      ebitPrompt "2020-12-31" =
        "EBIT missing. Enter EBIT on " ++ "2020-12-31" ++ " or skip: ") ∧
    (enterprise_value_calculation sampleIncome sampleCashflow sampleBalance
        sampleBalance 1 (1/10) 0 0 (1/50) zeroProvider = .ok (1396000/1331, []) ∧
      ([] : List String) =
        (getEbit sampleIncome.EBIT sampleIncome.date zeroProvider).2) := by
  have hrun : enterprise_value_calculation sampleIncome sampleCashflow sampleBalance
      sampleBalance 1 (1/10) 0 0 (1/50) zeroProvider = .ok (1396000/1331, []) := by
    rw [enterprise_value_calculation]
    norm_num [sampleIncome, sampleCashflow, sampleBalance, zeroProvider, getEbit,
      runForecast, forecastFrom, forecastStep, ulFCF, cwcOf]
  exact ⟨⟨by norm_num,
      C9_ebit_source_and_fallback.1 5 "2020-12-31" zeroProvider (by norm_num)⟩,
    C9_ebit_source_and_fallback.2.1 "2020-12-31" zeroProvider,
    hrun,
    C9_ebit_source_and_fallback.2.2 sampleIncome sampleCashflow sampleBalance
      sampleBalance 1 (1/10) 0 0 (1/50) zeroProvider (1396000/1331) [] hrun⟩

/-- Counterexample to C1 as stated: in the statement-driven variant, with
discount rate `0.02` strictly below the perpetual growth rate `0.05`, the
run does not fail — the Gordon Growth division is performed and a finite
negative enterprise value is returned silently. -/
theorem C1_counterexample :
    (2/100 : ℚ) ≤ 5/100 ∧
    enterprise_value_calculation sampleIncome sampleCashflow sampleBalance
      sampleBalance 1 (2/100) 0 0 (5/100) zeroProvider =
        .ok (-424495000/132651, []) ∧
    (-424495000/132651 : ℚ) < 0 := by
  refine ⟨by norm_num, ?_, by norm_num⟩
  rw [enterprise_value_calculation]
  norm_num [sampleIncome, sampleCashflow, sampleBalance, zeroProvider, getEbit,
    runForecast, forecastFrom, forecastStep, ulFCF, cwcOf]

/-- C1 amended: only the scalar variant checks
`discount_rate > terminal_growth_rate` before computing anything and
fails descriptively.  The statement-driven variant performs no prior
check: at equality the Gordon Growth division itself is reached and
fails with a raw zero-division error, and with the discount rate
strictly below the growth rate the calculation completes and silently
returns a value. -/
theorem C1_amended_guard :
    (∀ s : DCFState, s.wacc ≤ s.terminal_growth_rate →
      calcDCF s = .error .waccLeTerminal) ∧
    (∀ (income0 : IncomeRecord) (cashflow0 : CashflowRecord)
      (balance0 balance1 : BalanceRecord) (period : Nat)
      (d eg cg pgr : ℚ) (provider : String → ℚ),
      income0.earningsBeforeTax ≠ 0 → 1 ≤ period → d = pgr →
      enterprise_value_calculation income0 cashflow0 balance0 balance1 period
        d eg cg pgr provider = .error .terminalZeroDiv) ∧
    (∀ (income0 : IncomeRecord) (cashflow0 : CashflowRecord)
      (balance0 balance1 : BalanceRecord) (period : Nat)
      (d eg cg pgr : ℚ) (provider : String → ℚ),
      income0.earningsBeforeTax ≠ 0 → 1 ≤ period → d ≠ pgr →
      ∃ v prompts, enterprise_value_calculation income0 cashflow0 balance0
        balance1 period d eg cg pgr provider = .ok (v, prompts)) := by
  refine ⟨fun s h => by rw [calcDCF, if_pos h], ?_, ?_⟩
  · intro income0 cashflow0 balance0 balance1 period d eg cg pgr provider
      hEBT hp hd
    obtain ⟨l, hl⟩ := exists_getLast?_of_ne_nil
      (statementFlows_ne_nil income0 cashflow0 balance0 balance1 period
        d eg cg provider hEBT hp)
    exact evc_eq_terminalZeroDiv income0 cashflow0 balance0 balance1 period
      d eg cg pgr provider l hEBT hl (sub_eq_zero.mpr hd)
  · intro income0 cashflow0 balance0 balance1 period d eg cg pgr provider
      hEBT hp hd
    obtain ⟨l, hl⟩ := exists_getLast?_of_ne_nil
      (statementFlows_ne_nil income0 cashflow0 balance0 balance1 period
        d eg cg provider hEBT hp)
    exact ⟨_, _, evc_eq_ok income0 cashflow0 balance0 balance1 period
      d eg cg pgr provider l hEBT hl (fun hc => hd (sub_eq_zero.mp hc))⟩

/-- Scenario B of the spec: Scenario A with the WACC lowered to equal the
terminal growth rate. -/
def scenarioB : DCFState := { scenarioA with wacc := 2/100 }

/-- Witness for C1 amended: the scalar guard at Scenario B, the
statement-path zero division at `d = pgr = 0.02`, and the silent success
at `d = 0.1 > pgr = 0.02`. -/
theorem C1_amended_guard_witness :
    (scenarioB.wacc ≤ scenarioB.terminal_growth_rate ∧
      calcDCF scenarioB = .error .waccLeTerminal) ∧
    (sampleIncome.earningsBeforeTax ≠ 0 ∧ (1 : Nat) ≤ 1 ∧ (1/50 : ℚ) = 1/50 ∧
      enterprise_value_calculation sampleIncome sampleCashflow sampleBalance
        sampleBalance 1 (1/50) 0 0 (1/50) zeroProvider =
          .error .terminalZeroDiv) ∧
    ((1/10 : ℚ) ≠ 1/50 ∧
      ∃ v prompts, enterprise_value_calculation sampleIncome sampleCashflow
        sampleBalance sampleBalance 1 (1/10) 0 0 (1/50) zeroProvider =
          .ok (v, prompts)) :=
  ⟨⟨by norm_num [scenarioB, scenarioA],
      C1_amended_guard.1 scenarioB (by norm_num [scenarioB, scenarioA])⟩,
    ⟨by norm_num [sampleIncome], le_refl 1, rfl,
      C1_amended_guard.2.1 sampleIncome sampleCashflow sampleBalance
        sampleBalance 1 (1/50) 0 0 (1/50) zeroProvider
        (by norm_num [sampleIncome]) (le_refl 1) rfl⟩,
    ⟨by norm_num,
      C1_amended_guard.2.2 sampleIncome sampleCashflow sampleBalance
        sampleBalance 1 (1/10) 0 0 (1/50) zeroProvider
        (by norm_num [sampleIncome]) (le_refl 1) (by norm_num)⟩⟩

/-- Counterexample to C2 as stated: at a concrete one-year forecast the
final year's projected (undiscounted) flow is `100` and the retained
present values are `[1000/11]`, yet the returned enterprise value is
`1396000/1331`, not the `1000/11 + (100 × 1.02 / 0.08) / 1.1²` the claim's
terminal-value formula would give — the code builds the terminal value
from the discounted flow `flows[-1]`, not the undiscounted one. -/
theorem C2_counterexample :
    enterprise_value_calculation sampleIncome sampleCashflow sampleBalance
      sampleBalance 1 (1/10) 0 0 (1/50) zeroProvider =
        .ok (1396000/1331, []) ∧
    statementFlows sampleIncome sampleCashflow sampleBalance sampleBalance 1
      (1/10) 0 0 zeroProvider = [1000/11] ∧
    ulFCF (100 * (1 + (1 : ℚ) * 0)) 0 (0 * (1 + (1 : ℚ) * 0)) (0 * (7/10))
      (0 * (1 + (1 : ℚ) * 0)) = 100 ∧
    (1000/11 : ℚ) = 100 / (1 + 1/10) ^ 1 ∧
    (1396000/1331 : ℚ) ≠
      1000/11 + (100 * (1 + 1/50) / (1/10 - 1/50)) / (1 + 1/10) ^ (1 + 1) := by
  refine ⟨?_, ?_, by norm_num [ulFCF], by norm_num, by norm_num⟩
  · rw [enterprise_value_calculation]
    norm_num [sampleIncome, sampleCashflow, sampleBalance, zeroProvider, getEbit,
      runForecast, forecastFrom, forecastStep, ulFCF, cwcOf]
  · rw [statementFlows]
    norm_num [sampleIncome, sampleCashflow, sampleBalance, zeroProvider, getEbit,
      runForecast, forecastFrom, forecastStep, ulFCF, cwcOf]

/-- C2 amended: the statement-driven terminal value is built from the
final year's *discounted* flow — the last retained present value — as
`last_pv × (1 + g) / (d − g)`, its present value divides by
`(1 + d) ^ (1 + period)`, and the enterprise value is that plus the sum
of the retained present values; the projection step retains only present
values. -/
theorem C2_amended_terminal_from_pv
    (income0 : IncomeRecord) (cashflow0 : CashflowRecord)
    (balance0 balance1 : BalanceRecord) (period : Nat)
    (d eg cg pgr : ℚ) (provider : String → ℚ)
    (hEBT : income0.earningsBeforeTax ≠ 0) (hp : 1 ≤ period) (hd : d ≠ pgr) :
    ∃ l, (statementFlows income0 cashflow0 balance0 balance1 period
        d eg cg provider).getLast? = some l ∧
      enterprise_value_calculation income0 cashflow0 balance0 balance1 period
          d eg cg pgr provider =
        .ok (l * (1 + pgr) / (d - pgr) / (1 + d) ^ (1 + period) +
          (statementFlows income0 cashflow0 balance0 balance1 period
            d eg cg provider).sum,
          (getEbit income0.EBIT income0.date provider).2) := by
  obtain ⟨l, hl⟩ := exists_getLast?_of_ne_nil
    (statementFlows_ne_nil income0 cashflow0 balance0 balance1 period
      d eg cg provider hEBT hp)
  exact ⟨l, hl, evc_eq_ok income0 cashflow0 balance0 balance1 period
    d eg cg pgr provider l hEBT hl (fun hc => hd (sub_eq_zero.mp hc))⟩

/-- Witness for C2 amended at the concrete one-year example. -/
theorem C2_amended_terminal_from_pv_witness :
    (sampleIncome.earningsBeforeTax ≠ 0 ∧ (1 : Nat) ≤ 1 ∧ (1/10 : ℚ) ≠ 1/50) ∧
    (∃ l, (statementFlows sampleIncome sampleCashflow sampleBalance
        sampleBalance 1 (1/10) 0 0 zeroProvider).getLast? = some l ∧
      enterprise_value_calculation sampleIncome sampleCashflow sampleBalance
          sampleBalance 1 (1/10) 0 0 (1/50) zeroProvider =
        .ok (l * (1 + 1/50) / (1/10 - 1/50) / (1 + 1/10) ^ (1 + 1) +
          (statementFlows sampleIncome sampleCashflow sampleBalance
            sampleBalance 1 (1/10) 0 0 zeroProvider).sum,
          (getEbit sampleIncome.EBIT sampleIncome.date zeroProvider).2)) :=
  ⟨⟨by norm_num [sampleIncome], le_refl 1, by norm_num⟩,
    C2_amended_terminal_from_pv sampleIncome sampleCashflow sampleBalance
      sampleBalance 1 (1/10) 0 0 (1/50) zeroProvider
      (by norm_num [sampleIncome]) (le_refl 1) (by norm_num)⟩

end Mimir
